import Mathlib

/-!
Verification of the client-side rendering layer of the smart-money-scanner
dashboard (`src/public/app.js`).

The JavaScript is shallowly embedded: JS numbers appearing in the data are
exact rationals (the claims under study concern only fallback selection,
decimal formatting and NaN propagation, never binary rounding), an absent
field is `Option.none`, and the handful of JS value-level idioms the code
uses (`x || d` truthiness defaulting, optional chaining `?.toFixed`,
`undefined`-to-NaN coercion in arithmetic, `String.prototype.split`) are
modelled by small explicit combinators.  DOM mutation is explicit state
passing over a record of the text slots the code writes; `try`/`catch`
around a sequence of mutations is an `Except` whose error carries the
state at the throw point, since DOM writes already performed are not
rolled back.
-/

/-- A JS number: either NaN or a finite value (modelled as an exact
rational).  Infinities are not modelled: the only division in the source
is by the constant `1e9`, and the only multiplication by the constant
`100`, so no operand combination in scope produces one. -/
inductive JNum where
  | nan : JNum
  | fin (q : ℚ) : JNum
deriving DecidableEq

/-- Decimal rendering of the scaled integer `n` with `d` digits after the
point: the digit string of `n`, left-padded with zeros to at least `d + 1`
digits, with the point inserted `d` digits from the right. -/
def fixedDigits (d n : ℕ) : String :=
  let cs : List Char := (toString n).data
  let cs : List Char :=
    if cs.length < d + 1 then List.replicate (d + 1 - cs.length) '0' ++ cs else cs
  if d = 0 then String.mk cs
  else String.mk (cs.take (cs.length - d)) ++ "." ++ String.mk (cs.drop (cs.length - d))

/-- Render a nonnegative rational to `d` fixed decimal places, rounding as
`Number.prototype.toFixed` does (nearest, ties toward the larger value). -/
def ratToFixedNonneg (d : ℕ) (q : ℚ) : String :=
  fixedDigits d (⌊q * (10 : ℚ) ^ d + 1 / 2⌋).toNat

/-- JS `q.toFixed(d)` for a finite number. -/
def ratToFixed (d : ℕ) (q : ℚ) : String :=
  if q < 0 then "-" ++ ratToFixedNonneg d (-q) else ratToFixedNonneg d q

/-- JS `x.toFixed(d)` on a number: `NaN.toFixed(d)` is the string "NaN". -/
def JNum.toFixed (d : ℕ) : JNum → String
  | .nan => "NaN"
  | .fin q => ratToFixed d q

/-- JS multiplication: NaN propagates. -/
def JNum.mul : JNum → JNum → JNum
  | .fin a, .fin b => .fin (a * b)
  | _, _ => .nan

/-- JS division: NaN propagates.  Division by zero (which JS sends to
Infinity) is mapped to NaN; the source only ever divides by `1e9`, so the
case is unreachable there. -/
def JNum.div : JNum → JNum → JNum
  | .fin a, .fin b => if b = 0 then .nan else .fin (a / b)
  | _, _ => .nan

/-- Coercion of a possibly-absent numeric field into JS arithmetic:
`undefined` coerces to NaN. -/
def jsNumOf : Option ℚ → JNum
  | none => .nan
  | some q => .fin q

/-- JS `x || d` where `x` is a possibly-absent number field: `undefined`
and `0` are falsy, every other number is truthy. -/
def jsOrNum (o : Option ℚ) (d : ℚ) : ℚ :=
  match o with
  | none => d
  | some q => if q = 0 then d else q

/-- JS `x || d` where `x` is a possibly-absent string field: `undefined`
and the empty string are falsy. -/
def jsOrStr (o : Option String) (d : String) : String :=
  match o with
  | none => d
  | some s => if s = "" then d else s

/-- JS `s || d` on a sure string: only `""` is falsy. -/
def jsStrOr (s d : String) : String :=
  if s = "" then d else s

/-- JS `x || d` where `x : string | undefined` is the result of an
optional chain. -/
def jsOrOptStr (o : Option String) (d : String) : String :=
  match o with
  | none => d
  | some s => jsStrOr s d

/-- JS optional chain `x?.toFixed(d)` on a possibly-`undefined` number:
short-circuits to `undefined` instead of throwing. -/
def jsOptChainToFixed (o : Option JNum) (d : ℕ) : Option String :=
  o.map (JNum.toFixed d)

/-- JS plain method call `x.toFixed(d)`: throws a TypeError when the
receiver is `undefined`. -/
def jsMethodToFixed (o : Option JNum) (d : ℕ) : Except String String :=
  match o with
  | none => .error "TypeError: toFixed of undefined"
  | some n => .ok (n.toFixed d)

/-- JS truthiness of a possibly-absent boolean field (`undefined` falsy). -/
def jsTruthyBool (o : Option Bool) : Bool :=
  o.getD false

/-- JS `String.prototype.split` on a single-character separator, over the
character list. -/
def splitCharAux (c : Char) : List Char → List (List Char)
  | [] => [[]]
  | x :: xs =>
    if x = c then [] :: splitCharAux c xs
    else
      match splitCharAux c xs with
      | [] => [[x]]
      | t :: ts => (x :: t) :: ts

/-- JS `s.split(' ')[0]`: `split` on a nonempty separator never returns an
empty array, so element `0` always exists. -/
def jsSplitSpaceFirst (s : String) : String :=
  String.mk ((splitCharAux ' ' s.data).headD [])

/-! ## Data model (§3 of the spec, as consumed by `app.js`) -/

/-- `details.technicals`: both fields optional. -/
structure Technicals where
  relative_volume : Option ℚ := none
  trend : Option String := none
deriving DecidableEq

/-- `details.institutional`: optional outlook narrative. -/
structure Institutional where
  outlook : Option String := none
deriving DecidableEq

/-- `details.financials`: every field optional. -/
structure Financials where
  sector : Option String := none
  score : Option ℚ := none
  pe : Option ℚ := none
  debt_equity : Option ℚ := none
  roe : Option ℚ := none
  market_cap : Option ℚ := none
  stability : Option String := none
deriving DecidableEq

/-- `details`: three optional sub-objects. -/
structure StockDetails where
  technicals : Option Technicals := none
  institutional : Option Institutional := none
  financials : Option Financials := none
deriving DecidableEq

/-- One element of a `/api/scan` result set. -/
structure StockSummary where
  symbol : String
  score : ℚ
  details : Option StockDetails := none
deriving DecidableEq

/-- A `/api/analyze/{symbol}` response. -/
structure StockAnalysis where
  symbol : String
  score : ℚ
  details : Option StockDetails := none
  passed_financials : Bool
deriving DecidableEq

/-- The nested-object resolution both renderers perform first:
`stock.details || {}` and then `X || {}` on each sub-object (an object,
even empty, is truthy, so a present sub-object is used as is). -/
def resolvedDetails (d : Option StockDetails) : StockDetails :=
  d.getD {}

/-- `details.technicals || {}`. -/
def resolvedTechnicals (d : Option StockDetails) : Technicals :=
  (resolvedDetails d).technicals.getD {}

/-- `details.institutional || {}`. -/
def resolvedInstitutional (d : Option StockDetails) : Institutional :=
  (resolvedDetails d).institutional.getD {}

/-- `details.financials || {}`. -/
def resolvedFinancials (d : Option StockDetails) : Financials :=
  (resolvedDetails d).financials.getD {}

/-! ## Summary-card projection (`fetchStocks` loop body, app.js lines 44-80) -/

/-- The display values one stock card carries (markup and styling are out
of scope; the card is identified by the dynamic values interpolated into
its template). -/
structure CardView where
  symbol : String
  score : ℚ
  sector : String
  finScore : ℚ
  rvolStr : String
  reasoning : String
deriving DecidableEq

/-- One card of the result grid, as built by the `forEach` body of
`fetchStocks`; pure form. -/
def stockCard (stock : StockSummary) : CardView :=
  let technicals := resolvedTechnicals stock.details
  let financials := resolvedFinancials stock.details
  let rvol : ℚ := jsOrNum technicals.relative_volume 1
  let sector := jsOrStr financials.sector "Market"
  let finScore : ℚ := jsOrNum financials.score 0
  { symbol := stock.symbol
    score := stock.score
    sector := sector
    finScore := finScore
    rvolStr := ratToFixed 2 rvol
    reasoning := jsOrStr technicals.trend "Posicionamiento Institucional" ++ " detectado." }

/-- The card construction with JS partiality made explicit: the one method
call whose receiver could in principle be `undefined` (`rvol.toFixed(2)`)
goes through `jsMethodToFixed`; its receiver is the result of
`technicals.relative_volume || 1.0`, hence always a number. -/
def renderStockCard (stock : StockSummary) : Except String CardView := do
  let technicals := resolvedTechnicals stock.details
  let financials := resolvedFinancials stock.details
  let rvol : ℚ := jsOrNum technicals.relative_volume 1
  let sector := jsOrStr financials.sector "Market"
  let finScore : ℚ := jsOrNum financials.score 0
  let rvolStr ← jsMethodToFixed (some (.fin rvol)) 2
  pure
    { symbol := stock.symbol
      score := stock.score
      sector := sector
      finScore := finScore
      rvolStr := rvolStr
      reasoning := jsOrStr technicals.trend "Posicionamiento Institucional" ++ " detectado." }

/-! ## Detail-modal projection (`showStockDetail`, app.js lines 86-140) -/

/-- The dynamic display values of the modal body template. -/
structure DetailView where
  symbol : String
  score : ℚ
  sector : String
  outlook : String
  rvol : String
  trend : String
  stability : String
  pe : String
  debtEquity : String
  roe : String
  marketCap : String
  banner : String
deriving DecidableEq

/-- The modal body built from one analysis response; pure form.  Each
field is the template expression from the source:
`financials.sector || 'N/A'`, `institutional.outlook || '...'`,
`technicals.relative_volume?.toFixed(2) || '1.00'`,
`financials.pe?.toFixed(1) || 'N/A'`,
`financials.debt_equity?.toFixed(2) || 'N/A'`,
`(financials.roe * 100)?.toFixed(1) || '0'` followed by "%",
`(financials.market_cap / 1e9).toFixed(1)` followed by "B",
and the `passed_financials` ternary. -/
def modalBody (data : StockAnalysis) : DetailView :=
  let technicals := resolvedTechnicals data.details
  let financials := resolvedFinancials data.details
  let institutional := resolvedInstitutional data.details
  { symbol := data.symbol
    score := data.score
    sector := jsOrStr financials.sector "N/A"
    outlook := jsOrStr institutional.outlook "Análisis en proceso..."
    rvol := jsOrOptStr (jsOptChainToFixed (technicals.relative_volume.map .fin) 2) "1.00"
    trend := jsOrStr technicals.trend "Neutral"
    stability := jsOrStr financials.stability "Media"
    pe := jsOrOptStr (jsOptChainToFixed (financials.pe.map .fin) 1) "N/A"
    debtEquity := jsOrOptStr (jsOptChainToFixed (financials.debt_equity.map .fin) 2) "N/A"
    roe := jsStrOr (((jsNumOf financials.roe).mul (.fin 100)).toFixed 1) "0" ++ "%"
    marketCap := ((jsNumOf financials.market_cap).div (.fin 1000000000)).toFixed 1 ++ "B"
    banner := if data.passed_financials then "PASSED FUNDAMENTAL CHECK" else "RISKY FUNDAMENTALS" }

/-- The modal body with JS partiality made explicit.  The plain `.toFixed`
receivers are `(financials.roe * 100)` and `(financials.market_cap / 1e9)`:
both are arithmetic results, hence numbers (possibly NaN) and never
`undefined`; the remaining `toFixed` uses in the template are optional
chains, which cannot throw. -/
def renderModalBody (data : StockAnalysis) : Except String DetailView := do
  let technicals := resolvedTechnicals data.details
  let financials := resolvedFinancials data.details
  let institutional := resolvedInstitutional data.details
  let roeStr ← jsMethodToFixed (some ((jsNumOf financials.roe).mul (.fin 100))) 1
  let mcStr ← jsMethodToFixed (some ((jsNumOf financials.market_cap).div (.fin 1000000000))) 1
  pure
    { symbol := data.symbol
      score := data.score
      sector := jsOrStr financials.sector "N/A"
      outlook := jsOrStr institutional.outlook "Análisis en proceso..."
      rvol := jsOrOptStr (jsOptChainToFixed (technicals.relative_volume.map .fin) 2) "1.00"
      trend := jsOrStr technicals.trend "Neutral"
      stability := jsOrStr financials.stability "Media"
      pe := jsOrOptStr (jsOptChainToFixed (financials.pe.map .fin) 1) "N/A"
      debtEquity := jsOrOptStr (jsOptChainToFixed (financials.debt_equity.map .fin) 2) "N/A"
      roe := jsStrOr roeStr "0" ++ "%"
      marketCap := mcStr ++ "B"
      banner := if data.passed_financials then "PASSED FUNDAMENTAL CHECK" else "RISKY FUNDAMENTALS" }

/-! ## Request routing (`fetchStocks`, app.js lines 26-36) -/

/-- The argument of `fetchStocks`: the number `0` on the initial load,
otherwise the string value of the filter control (numeric strings or the
sentinel "darwinex"). -/
inductive FilterVal where
  | num (n : ℤ)
  | str (s : String)
deriving DecidableEq

/-- JS strict equality `minScore === "darwinex"`: a number is never
strictly equal to a string. -/
def FilterVal.isDarwinex : FilterVal → Bool
  | .num _ => false
  | .str s => s = "darwinex"

/-- JS template-literal stringification of the filter value. -/
def FilterVal.interp : FilterVal → String
  | .num n => toString n
  | .str s => s

/-- The URL `fetchStocks` requests (lines 28-34; `API_BASE` is "/api").
The initial `let url = ...` on line 28 is dead, reassigned by both
branches of the conditional. -/
def scanRequestUrl (minScore : FilterVal) : String :=
  if minScore.isDarwinex then "/api/scan-darwinex?limit=50&min_score=0"
  else "/api/scan?limit=50&min_score=" ++ minScore.interp

/-! ## DOM state and the two fetch operations -/

/-- The text slots and grid region the status poller and scan renderer
write.  `scanning` models membership of the `scanning` CSS class on the
worker-state label; `grid` models the children of `#stocksGrid`;
`opportunityCount` and `totalIndexed` hold what `textContent` holds
(assigning a number to `textContent` stringifies it). -/
structure UIState where
  totalIndexed : String
  workerState : String
  scanProgressText : String
  scanning : Bool
  grid : List CardView
  opportunityCount : String
deriving DecidableEq

/-- `worker` object of a `/api/status` response.  Fields are optional so
that responses of the wrong shape can be expressed. -/
structure WorkerStatus where
  is_running : Option Bool := none
  last_run : Option String := none
deriving DecidableEq

/-- A decoded `/api/status` response body. -/
structure StatusData where
  db_status : Option String := none
  worker : Option WorkerStatus := none
deriving DecidableEq

/-- A decoded `/api/scan` response body.  `results := none` models a body
that parsed as JSON but lacks the `results` array. -/
structure ScanData where
  results : Option (List StockSummary) := none
deriving DecidableEq

/-- The `try` block of `fetchHome` after the response is decoded
(app.js lines 10-20).  The error side carries the UI state at the point
of the throw: DOM writes already performed are not rolled back.
Throw sites: `data.db_status.split(' ')` when `db_status` is absent,
`data.worker.is_running` when `worker` is absent, and
`data.worker.last_run.includes('GMT')` when `last_run` is absent in the
idle branch. -/
def fetchHomeBody (data : StatusData) (st : UIState) : Except UIState UIState :=
  match data.db_status with
  | none => .error st
  | some s =>
    let st1 := { st with totalIndexed := jsSplitSpaceFirst s }
    match data.worker with
    | none => .error st1
    | some w =>
      let running := jsTruthyBool w.is_running
      let st2 := { st1 with workerState := if running then "SCANNING" else "IDLE" }
      if running then
        .ok { st2 with scanProgressText := "Stock Analysis in Progress...", scanning := true }
      else
        match w.last_run with
        | none => .error st2
        | some lastRun =>
          .ok { st2 with scanProgressText := "Last run: " ++ lastRun, scanning := false }

/-- `fetchHome` (app.js lines 5-24): `resp = none` models a rejected
`fetch` or a body that is not valid JSON — the throw happens before any
DOM write.  The surrounding `catch` only logs, so every throw leaves the
state reached so far. -/
def fetchHome (resp : Option StatusData) (st : UIState) : UIState :=
  match resp with
  | none => st
  | some data =>
    match fetchHomeBody data st with
    | .ok st' => st'
    | .error st' => st'

/-- Inclusive opportunity predicate `s.score >= 75`. -/
def isOpportunity (s : StockSummary) : Bool :=
  75 ≤ s.score

/-- The `try` block of `fetchStocks` after the response is decoded
(app.js lines 39-80).  `grid.innerHTML = ""` executes before
`data.results` is first read, so a body without `results` throws at
`.filter` with the grid already cleared. -/
def fetchStocksBody (data : ScanData) (st : UIState) : Except UIState UIState :=
  let st1 := { st with grid := [] }
  match data.results with
  | none => .error st1
  | some results =>
    let st2 := { st1 with opportunityCount := toString (results.filter isOpportunity).length }
    .ok { st2 with grid := results.map stockCard }

/-- `fetchStocks` (app.js lines 26-83): `resp = none` models a rejected
`fetch` or invalid JSON; the `catch` only logs. -/
def fetchStocks (resp : Option ScanData) (st : UIState) : UIState :=
  match resp with
  | none => st
  | some data =>
    match fetchStocksBody data st with
    | .ok st' => st'
    | .error st' => st'

/-! ## Modal lifecycle (`showStockDetail` and the close handlers) -/

/-- The modal body region: either literal text the code assigns or a
rendered detail layout. -/
inductive ModalBody where
  | text (s : String)
  | detail (v : DetailView)
deriving DecidableEq

/-- The modal: its `style.display` value and its body region. -/
structure ModalState where
  display : String
  body : ModalBody
deriving DecidableEq

/-- The synchronous prefix of `showStockDetail` (app.js lines 87-90),
executed before the analysis fetch is awaited: loading placeholder into
the body, then `display = "block"`. -/
def showStockDetailPre (st : ModalState) : ModalState :=
  let st := { st with body := .text "Cargando análisis profundo..." }
  { st with display := "block" }

/-- The continuation of `showStockDetail` once the fetch settles
(app.js lines 92-139): on success the body is replaced by the rendered
detail layout, on failure by the error text; `display` is not touched in
either branch. -/
def showStockDetailPost (resp : Option StockAnalysis) (st : ModalState) : ModalState :=
  match resp with
  | some data => { st with body := .detail (modalBody data) }
  | none => { st with body := .text "Error al cargar los datos detallados." }

/-- The whole of `showStockDetail` for one settled fetch. -/
def showStockDetail (resp : Option StockAnalysis) (st : ModalState) : ModalState :=
  showStockDetailPost resp (showStockDetailPre st)

/-- The explicit close control (`.close-modal` click handler)
and the backdrop-click handler both set `display = "none"`. -/
def closeModal (st : ModalState) : ModalState :=
  { st with display := "none" }

/-- A concrete UI state with a populated grid, used as the prior state in
concrete scenarios. -/
def uiState0 : UIState :=
  { totalIndexed := "5231"
    workerState := "IDLE"
    scanProgressText := "Last run: Mon, 06 Oct 2025 10:00:00 GMT"
    scanning := false
    grid := [stockCard { symbol := "AAPL", score := 80, details := none }]
    opportunityCount := "1" }

/-! ## Helper lemmas -/

/-- `split` on a one-character separator never returns an empty list. -/
theorem splitCharAux_ne_nil (c : Char) : ∀ l : List Char, splitCharAux c l ≠ []
  | [] => by simp [splitCharAux]
  | x :: xs => by
    simp only [splitCharAux]
    by_cases h : x = c
    · simp [h]
    · simp only [h, if_false]
      cases hs : splitCharAux c xs <;> simp

/-- The first component of the split is the prefix of characters up to
the first separator. -/
theorem splitCharAux_headD (c : Char) :
    ∀ l : List Char, (splitCharAux c l).headD [] = l.takeWhile (fun x => x != c)
  | [] => by simp [splitCharAux]
  | x :: xs => by
    simp only [splitCharAux, List.takeWhile_cons]
    by_cases h : x = c
    · simp [h]
    · have ih := splitCharAux_headD c xs
      have hne := splitCharAux_ne_nil c xs
      cases hs : splitCharAux c xs with
      | nil => exact absurd hs hne
      | cons t ts =>
        rw [hs] at ih
        simp only [List.headD_cons] at ih
        simp [h, ih]

/-- `s.split(' ')[0]` is the prefix of `s` before its first space. -/
theorem jsSplitSpaceFirst_eq (s : String) :
    jsSplitSpaceFirst s = String.mk (s.data.takeWhile (fun c => c != ' ')) := by
  unfold jsSplitSpaceFirst
  rw [splitCharAux_headD]

/-- Evaluation rule for `ratToFixed`: a nonnegative rational whose scaled
value lies in `[n, n + 1)` renders as the digits of `n`.  The bounds are
dischargeable by `norm_num` at concrete inputs, which kernel reduction of
rational arithmetic is not. -/
theorem ratToFixed_eval {q : ℚ} {d n : ℕ} (h0 : 0 ≤ q)
    (h1 : (n : ℚ) ≤ q * (10 : ℚ) ^ d + 1 / 2)
    (h2 : q * (10 : ℚ) ^ d + 1 / 2 < (n : ℚ) + 1) :
    ratToFixed d q = fixedDigits d n := by
  have hfl : ⌊q * (10 : ℚ) ^ d + 1 / 2⌋ = (n : ℤ) := by
    rw [Int.floor_eq_iff]
    constructor
    · exact_mod_cast h1
    · exact_mod_cast h2
  unfold ratToFixed ratToFixedNonneg
  rw [if_neg (not_lt.mpr h0), hfl, Int.toNat_natCast]

/-- The explicit-partiality card renderer never throws and agrees with
the pure projection. -/
theorem renderStockCard_ok (s : StockSummary) :
    renderStockCard s = .ok (stockCard s) := rfl

/-- The explicit-partiality modal-body renderer never throws and agrees
with the pure projection. -/
theorem renderModalBody_ok (a : StockAnalysis) :
    renderModalBody a = .ok (modalBody a) := rfl

/-! ## Claims -/

/-- Claim C1: for every StockSummary/StockAnalysis whose `details` object
is missing any subset of optional fields or sub-objects (including
`details` itself being entirely absent), rendering the summary card and
rendering the detail modal body never throw — every JS member access and
method call in the two templates has a defined receiver, so the
explicit-partiality renderers return a value for every input. -/
theorem rendering_never_throws (s : StockSummary) (a : StockAnalysis) :
    (renderStockCard s).isOk = true ∧ (renderModalBody a).isOk = true := by
  rw [renderStockCard_ok, renderModalBody_ok]
  exact ⟨rfl, rfl⟩

/-- Claim C2, evaluated at the failing input: with
`financials.market_cap` absent, the Market Cap cell renders "NaNB", not
the claimed "N/A" (`undefined / 1e9` is NaN and `NaN.toFixed(1)` is
"NaN"); the present side of the claim holds: a market cap of 2.5e9
renders "2.5B". -/
theorem marketCap_cell_eval :
    (modalBody
      { symbol := "AAPL", score := 88,
        details := some { financials := some { pe := some 31 } },
        passed_financials := true }).marketCap = "NaNB" ∧
    (modalBody
      { symbol := "MSFT", score := 90,
        details := some { financials := some { market_cap := some 2500000000 } },
        passed_financials := true }).marketCap = "2.5B" := by
  constructor
  · decide
  · simp only [modalBody, resolvedFinancials, resolvedDetails, jsNumOf, JNum.div]
    norm_num
    rw [JNum.toFixed, ratToFixed_eval (n := 25) (by norm_num) (by norm_num) (by norm_num)]
    decide

/-- Claim C3, evaluated at the failing input: with `financials.roe`
absent, the ROE cell renders "NaN%", not the claimed "0%" (`undefined *
100` is NaN, `NaN.toFixed(1)` is the truthy string "NaN", so the
`|| '0'` fallback is dead); a present roe of exactly 0 renders "0.0%"
(one-decimal formatting of 0 × 100, not "N/A"); a present roe of 0.15
renders "15.0%" (roe × 100 to one decimal). -/
theorem roe_cell_eval :
    (modalBody
      { symbol := "NVDA", score := 77,
        details := some { financials := some {} },
        passed_financials := false }).roe = "NaN%" ∧
    (modalBody
      { symbol := "TSLA", score := 70,
        details := some { financials := some { roe := some 0 } },
        passed_financials := false }).roe = "0.0%" ∧
    (modalBody
      { symbol := "META", score := 85,
        details := some { financials := some { roe := some (15 / 100) } },
        passed_financials := true }).roe = "15.0%" := by
  refine ⟨by decide, ?_, ?_⟩
  · simp only [modalBody, resolvedFinancials, resolvedDetails, jsNumOf, JNum.mul, jsStrOr]
    norm_num
    rw [JNum.toFixed, ratToFixed_eval (n := 0) (by norm_num) (by norm_num) (by norm_num)]
    decide
  · simp only [modalBody, resolvedFinancials, resolvedDetails, jsNumOf, JNum.mul, jsStrOr]
    norm_num
    rw [JNum.toFixed, ratToFixed_eval (n := 150) (by norm_num) (by norm_num) (by norm_num)]
    decide

/-- Claim C4 counterexample: in the detail-modal projection the fallback
for an absent sector is "N/A", not "Market" (the claim asserts "Market"
for both projections). -/
theorem sector_detail_fallback_counterexample :
    (modalBody
      { symbol := "AMD", score := 60, details := none,
        passed_financials := false }).sector = "N/A" ∧
    (modalBody
      { symbol := "AMD", score := 60, details := none,
        passed_financials := false }).sector ≠ "Market" := by
  exact ⟨rfl, by decide⟩

/-- Claim C4 as amended: for every input with `financials.sector` absent,
the summary-card projection displays "Market" and the detail-modal
projection displays "N/A". -/
theorem sector_absent_fallbacks (s : StockSummary) (a : StockAnalysis)
    (hs : (resolvedFinancials s.details).sector = none)
    (ha : (resolvedFinancials a.details).sector = none) :
    (stockCard s).sector = "Market" ∧ (modalBody a).sector = "N/A" := by
  constructor
  · simp [stockCard, jsOrStr, hs]
  · simp [modalBody, jsOrStr, ha]

/-- Witness for `sector_absent_fallbacks` at a concrete input with
`details` entirely absent. -/
theorem sector_absent_fallbacks_witness :
    (stockCard { symbol := "INTC", score := 55, details := none }).sector = "Market" ∧
    (modalBody
      { symbol := "INTC", score := 55, details := none,
        passed_financials := false }).sector = "N/A" :=
  sector_absent_fallbacks _ _ rfl rfl

/-- Claim C5 counterexample: a scan response that parses but lacks the
`results` array (a shape failure) does not leave the UI unchanged —
`grid.innerHTML = ""` runs before `data.results` is read, so the result
grid is cleared. -/
theorem scan_failure_counterexample :
    fetchStocks (some { results := none }) uiState0 ≠ uiState0 ∧
    (fetchStocks (some { results := none }) uiState0).grid = [] ∧
    uiState0.grid ≠ [] := by
  refine ⟨by decide, rfl, by decide⟩

/-- Claim C5 as amended: failures at the network or JSON-parse level
(modelled as no decoded response) are caught and leave every rendered
slot unchanged, for both the status fetch and the scan fetch; a scan
response that decodes but lacks `results` throws after the grid has been
cleared, leaving the status labels and the opportunity count unchanged
but the grid empty. -/
theorem fetch_failure_preserves_state (st : UIState) :
    fetchHome none st = st ∧ fetchStocks none st = st ∧
    (fetchStocks (some { results := none }) st).totalIndexed = st.totalIndexed ∧
    (fetchStocks (some { results := none }) st).workerState = st.workerState ∧
    (fetchStocks (some { results := none }) st).scanProgressText = st.scanProgressText ∧
    (fetchStocks (some { results := none }) st).opportunityCount = st.opportunityCount ∧
    (fetchStocks (some { results := none }) st).grid = [] := by
  exact ⟨rfl, rfl, rfl, rfl, rfl, rfl, rfl⟩

/-- Claim C6: the sentinel filter value "darwinex" routes the scan
request to the alternate endpoint with min_score 0, ignoring any numeric
minimum; every numeric filter value n routes to the standard endpoint
with min_score n and limit 50. -/
theorem scan_request_routing :
    scanRequestUrl (.str "darwinex") = "/api/scan-darwinex?limit=50&min_score=0" ∧
    ∀ n : ℤ, scanRequestUrl (.num n) = "/api/scan?limit=50&min_score=" ++ toString n := by
  exact ⟨rfl, fun _ => rfl⟩

/-- Claim C7: for every fetched result set, the displayed opportunity
count is the number of entries with score ≥ 75 (inclusive), computed over
the just-fetched set only — the prior UI state does not enter; for the
scores [80, 74, 75, 90] the count is 3. -/
theorem opportunity_count_eval (rs : List StockSummary) (st : UIState) :
    (fetchStocks (some { results := some rs }) st).opportunityCount
        = toString (rs.countP (fun s => decide (75 ≤ s.score))) ∧
    (fetchStocks
      (some
        { results := some
            [ { symbol := "A", score := 80 }, { symbol := "B", score := 74 },
              { symbol := "C", score := 75 }, { symbol := "D", score := 90 } ] })
      st).opportunityCount = "3" := by
  constructor
  · simp only [fetchStocks, fetchStocksBody, List.countP_eq_length_filter]
    rfl
  · simp [fetchStocks, fetchStocksBody, isOpportunity, List.filter]
    norm_num
    decide

/-- Claim C8: open(symbol) first shows the modal with the loading
placeholder (body set, then display "block") before the analysis fetch
resolves; when the fetch fails the body is replaced by the error
placeholder while display stays "block"; only the explicit close handlers
set display to "none". -/
theorem modal_lifecycle (st : ModalState) :
    showStockDetailPre st
        = { display := "block", body := .text "Cargando análisis profundo..." } ∧
    showStockDetail none st
        = { display := "block", body := .text "Error al cargar los datos detallados." } ∧
    (closeModal (showStockDetail none st)).display = "none" := by
  exact ⟨rfl, rfl, rfl⟩

/-- Claim C9: in the summary-card projection a present-but-zero value is
indistinguishable from an absent one for `technicals.relative_volume`
(both render "1.00") and for `financials.score` (both render 0), whereas
the detail projection renders a present relative volume of 0 as "0.00". -/
theorem zero_indistinguishable_from_absent :
    (∀ (sym : String) (sc : ℚ) (tr : Option String)
        (ins : Option Institutional) (fs : Option Financials),
      stockCard
          { symbol := sym, score := sc, details := some
              { technicals := some { relative_volume := some 0, trend := tr },
                institutional := ins, financials := fs } }
        = stockCard
          { symbol := sym, score := sc, details := some
              { technicals := some { relative_volume := none, trend := tr },
                institutional := ins, financials := fs } } ∧
      (stockCard
          { symbol := sym, score := sc, details := some
              { technicals := some { relative_volume := some 0, trend := tr },
                institutional := ins, financials := fs } }).rvolStr = "1.00") ∧
    (∀ (sym : String) (sc : ℚ) (tc : Option Technicals)
        (ins : Option Institutional) (f : Financials),
      stockCard
          { symbol := sym, score := sc, details := some
              { technicals := tc, institutional := ins,
                financials := some { f with score := some 0 } } }
        = stockCard
          { symbol := sym, score := sc, details := some
              { technicals := tc, institutional := ins,
                financials := some { f with score := none } } } ∧
      (stockCard
          { symbol := sym, score := sc, details := some
              { technicals := tc, institutional := ins,
                financials := some { f with score := some 0 } } }).finScore = 0) ∧
    (∀ (sym : String) (sc : ℚ) (tr : Option String)
        (ins : Option Institutional) (fs : Option Financials) (pf : Bool),
      (modalBody
          { symbol := sym, score := sc, details := some
              { technicals := some { relative_volume := some 0, trend := tr },
                institutional := ins, financials := fs },
            passed_financials := pf }).rvol = "0.00") := by
  refine ⟨fun sym sc tr ins fs => ⟨rfl, ?_⟩, fun sym sc tc ins f => ⟨rfl, rfl⟩, ?_⟩
  · show ratToFixed 2 (jsOrNum (some 0) 1) = "1.00"
    have h : jsOrNum (some 0) 1 = 1 := by decide
    rw [h, ratToFixed_eval (n := 100) (by norm_num) (by norm_num) (by norm_num)]
    decide
  · intro sym sc tr ins fs pf
    show jsOrOptStr (jsOptChainToFixed ((some (0 : ℚ)).map JNum.fin) 2) "1.00" = "0.00"
    have h2 : ratToFixed 2 0 = fixedDigits 2 0 :=
      ratToFixed_eval (by norm_num) (by norm_num) (by norm_num)
    simp only [jsOptChainToFixed, Option.map, Option.bind, jsOrOptStr, JNum.toFixed, h2]
    decide

/-- Claim C10: on every successful status fetch, the indexed-count label
is set to the prefix of `db_status` before its first space character, not
the whole string (`db_status.split(' ')[0]`). -/
theorem totalIndexed_first_token (d : StatusData) (s : String) (st : UIState)
    (h : d.db_status = some s) :
    (fetchHome (some d) st).totalIndexed
        = String.mk (s.data.takeWhile (fun c => c != ' ')) := by
  rw [← jsSplitSpaceFirst_eq]
  simp only [fetchHome, fetchHomeBody, h]
  cases hw : d.worker with
  | none => rfl
  | some w =>
    by_cases hrun : jsTruthyBool w.is_running = true
    · simp [hrun]
    · simp only [Bool.not_eq_true] at hrun
      cases hl : w.last_run with
      | none => simp [hrun, hl]
      | some lr => simp [hrun, hl]

/-- Witness for `totalIndexed_first_token`: a status body whose
`db_status` is "5231 documentos indexados" sets the label to "5231". -/
theorem totalIndexed_first_token_witness :
    (fetchHome
      (some
        { db_status := some "5231 documentos indexados",
          worker := some
            { is_running := some false,
              last_run := some "Mon, 06 Oct 2025 10:00:00 GMT" } })
      uiState0).totalIndexed = "5231" := by
  rw [totalIndexed_first_token _ "5231 documentos indexados" _ rfl]
  decide
